import Mathlib

/-!
Shallow embedding of the Xilinx PS IIC EEPROM polled example
(xiicps_eeprom_polled_example.c) and proofs about its device-discovery,
page-size-detection, transfer and self-test logic.

Hardware I2C transfers are modelled by an oracle environment indexed by an
operation counter (one tick per master send / master receive), and the two
global byte buffers are modelled as functions from index to byte value.
-/

/-- XST_SUCCESS return code (xstatus.h). -/
def XST_SUCCESS : Int := 0

/-- XST_FAILURE return code (xstatus.h). -/
def XST_FAILURE : Int := 1

/-- MAX_SIZE: maximum EEPROM page size supported (line 75). -/
def MAX_SIZE : Nat := 64

/-- PAGE_SIZE_16 (line 76). -/
def PAGE_SIZE_16 : Nat := 16

/-- PAGE_SIZE_32 (line 77). -/
def PAGE_SIZE_32 : Nat := 32

/-- PAGE_SIZE_64 (line 78). -/
def PAGE_SIZE_64 : Nat := 64

/-- EEPROM_START_ADDRESS (line 83). -/
def EEPROM_START_ADDRESS : Nat := 0

/-- SLV_MON_LOOP_COUNT: fixed poll budget of the slave monitor (line 67). -/
def SLV_MON_LOOP_COUNT : Nat := 0x00FFFFFF

/-- MAX_CHANNELS: initial mux channel bitmask (line 69). -/
def MAX_CHANNELS : Nat := 4

/-- Slave-ready bit of the interrupt status register
(XIICPS_IXR_SLV_RDY_MASK, from the driver header xiicps_hw.h). -/
def XIICPS_IXR_SLV_RDY_MASK : Nat := 0x10

/-- EepromAddr: candidate EEPROM addresses, zero-terminated (line 122). -/
def EepromAddr : List Nat := [0x54, 0x55, 0]

/-- MuxAddr: candidate mux addresses, zero-terminated (line 123). -/
def MuxAddr : List Nat := [0x74, 0]

/-- Pointwise update of a byte buffer modelled as a function. -/
def upd (b : Nat → Nat) (i v : Nat) : Nat → Nat :=
  fun j => if j = i then v else b j

/-- A loop `for (k = 0; k < n; k++) buf[off + k] = g k;` over a buffer. -/
def fillWith (b : Nat → Nat) (off n : Nat) (g : Nat → Nat) : Nat → Nat :=
  (List.range n).foldl (fun acc k => upd acc (off + k) (g k)) b

/-- The first n bytes of a buffer, as the byte list handed to the driver. -/
def bufBytes (b : Nat → Nat) (n : Nat) : List Nat :=
  (List.range n).map b

/-- Global mutable state of the example: WriteBuffer (66 bytes in C),
ReadBuffer (64 bytes in C) and the global PageSize. -/
structure ProgState where
  writeBuffer : Nat → Nat
  readBuffer : Nat → Nat
  pageSize : Nat

/-- I2C transfer oracle: sendOk t bytes addr tells whether the master send
issued at tick t succeeds; recv t count addr gives the bytes received by the
master receive issued at tick t (none = transfer failure). -/
structure I2CEnv where
  sendOk : Nat → List Nat → Nat → Bool
  recv : Nat → Nat → Nat → Option (List Nat)

/-- EepromWriteData (lines 250-276): one blocking master send of the first
ByteCount bytes of WriteBuffer; bus-idle wait and usleep have no effect in
the model.  Returns the status and the next tick. -/
def EepromWriteData (env : I2CEnv) (slvAddr : Nat) (wb : Nat → Nat)
    (byteCount : Nat) (t : Nat) : Int × Nat :=
  if env.sendOk t (bufBytes wb byteCount) slvAddr then (XST_SUCCESS, t + 1)
  else (XST_FAILURE, t + 1)

/-- Address-pointer encoding shared by EepromReadData (lines 299-306),
FindEepromPageSize (lines 571-578) and the self-test: the u16 address is
stored as one low byte when the page size is 16, else as two big-endian
bytes.  Returns the updated WriteBuffer and WrBfrOffset. -/
def eepromAddrEncode (pageSize address : Nat) (wb : Nat → Nat) :
    (Nat → Nat) × Nat :=
  if pageSize = PAGE_SIZE_16 then (upd wb 0 (address % 65536 % 256), 1)
  else
    (upd (upd wb 0 (address % 65536 / 256 % 256)) 1 (address % 65536 % 256), 2)

/-- EepromReadData (lines 290-328): encode the target address into
WriteBuffer, send the WrBfrOffset address bytes, then receive ByteCount
bytes into ReadBuffer. -/
def EepromReadData (env : I2CEnv) (slvAddr : Nat) (s : ProgState)
    (byteCount address t : Nat) : Int × ProgState × Nat :=
  let enc := eepromAddrEncode s.pageSize address s.writeBuffer
  let s1 : ProgState := { s with writeBuffer := enc.1 }
  let r1 := EepromWriteData env slvAddr s1.writeBuffer enc.2 t
  if r1.1 ≠ XST_SUCCESS then (XST_FAILURE, s1, r1.2)
  else
    match env.recv r1.2 byteCount slvAddr with
    | none => (XST_FAILURE, s1, r1.2 + 1)
    | some data =>
        (XST_SUCCESS,
         { s1 with readBuffer :=
             fillWith s1.readBuffer 0 byteCount (fun k => data.getD k 0 % 256) },
         r1.2 + 1)

/-- ps: candidate page sizes tried by the detector (line 560). -/
def ps : List Nat := [64, 32, 16]

/-- Buffer preparation of one detector trial (lines 571-583): encode
address 0, fill WriteBuffer[WrBfrOffset + k] with the u8 value (k + i) and
zero ReadBuffer[k] for k below the candidate size.  Returns the two updated
buffers and WrBfrOffset. -/
def detectorPagePrep (psz i : Nat) (wb rb : Nat → Nat) :
    (Nat → Nat) × (Nat → Nat) × Nat :=
  let enc := eepromAddrEncode psz EEPROM_START_ADDRESS wb
  (fillWith enc.1 enc.2 psz (fun k => (k + i) % 256),
   fillWith rb 0 psz (fun _ => 0), enc.2)

/-- Match counting of the detector (lines 604-608): the number of indices
below the candidate size at which ReadBuffer equals Index + i. -/
def countMatches (rb : Nat → Nat) (psz i : Nat) : Nat :=
  ((List.range psz).filter (fun k => rb k == k + i)).length

/-- The same count expressed on the raw received byte list. -/
def matchCountOf (data : List Nat) (psz i : Nat) : Nat :=
  ((List.range psz).filter (fun k => data.getD k 0 % 256 == k + i)).length

/-- One iteration i of the detector loop (lines 563-613): store the
candidate into the PageSize output, prepare the buffers, write the page,
read it back, count matches.  Sum.inl is an early return from the function;
Sum.inr carries the current Status into the next iteration. -/
def detectorTrial (env : I2CEnv) (slvAddr i : Nat) (s : ProgState) (t : Nat) :
    (Int ⊕ Int) × ProgState × Nat :=
  let psz := ps.getD i 0
  let s0 : ProgState := { s with pageSize := psz }
  let prep := detectorPagePrep psz i s0.writeBuffer s0.readBuffer
  let s1 : ProgState := { s0 with writeBuffer := prep.1, readBuffer := prep.2.1 }
  let r1 := EepromWriteData env slvAddr s1.writeBuffer (prep.2.2 + psz) t
  if r1.1 ≠ XST_SUCCESS then (Sum.inl XST_FAILURE, s1, r1.2)
  else
    let r2 := EepromReadData env slvAddr s1 psz EEPROM_START_ADDRESS r1.2
    if r2.1 ≠ XST_SUCCESS then (Sum.inl XST_FAILURE, r2.2.1, r2.2.2)
    else
      if countMatches r2.2.1.readBuffer psz i = psz then
        (Sum.inl XST_SUCCESS, r2.2.1, r2.2.2)
      else (Sum.inr r2.1, r2.2.1, r2.2.2)

/-- FindEepromPageSize (lines 554-615): the three trials of the for loop,
with early returns; if the last trial completes without accepting, the
current Status variable is returned (line 614). -/
def FindEepromPageSize (env : I2CEnv) (slvAddr : Nat) (s : ProgState)
    (t : Nat) : Int × ProgState × Nat :=
  let r0 := detectorTrial env slvAddr 0 s t
  match r0.1 with
  | Sum.inl st => (st, r0.2.1, r0.2.2)
  | Sum.inr _ =>
      let r1 := detectorTrial env slvAddr 1 r0.2.1 r0.2.2
      match r1.1 with
      | Sum.inl st => (st, r1.2.1, r1.2.2)
      | Sum.inr _ =>
          let r2 := detectorTrial env slvAddr 2 r1.2.1 r1.2.2
          match r2.1 with
          | Sum.inl st => (st, r2.2.1, r2.2.2)
          | Sum.inr st => (st, r2.2.1, r2.2.2)

/-- Buffer preparation of one write-phase iteration of the self-test
(lines 191-203): encode the target (the constant Address when the page size
is 16, else page_count * PageSize as two big-endian bytes, with u32
arithmetic), fill the page with 0xFF and zero ReadBuffer. -/
def examplePagePrep (psz pc : Nat) (wb rb : Nat → Nat) :
    (Nat → Nat) × (Nat → Nat) × Nat :=
  let enc : (Nat → Nat) × Nat :=
    if psz = PAGE_SIZE_16 then (upd wb 0 (EEPROM_START_ADDRESS % 256), 1)
    else
      (upd (upd wb 0 (pc * psz % 4294967296 / 256 % 256)) 1
        (pc * psz % 4294967296 % 256), 2)
  (fillWith enc.1 enc.2 psz (fun _ => 0xFF), fillWith rb 0 psz (fun _ => 0),
   enc.2)

/-- A probe of FindEepromDevice performed behind a selected mux channel:
which device instance, mux address, channel mask and EEPROM address. -/
structure Probe where
  devId : Nat
  muxAddr : Nat
  channel : Nat
  eepromAddr : Nat
deriving DecidableEq

/-- A return value of IicPsFindEeprom: the status, and the values written
to the Eeprom_Addr and PageSize output locations (none = untouched). -/
abbrev LocRet := Int × Option Nat × Option Nat

/-- Environment of the locator: number of I2C instances
(XPAR_XIICPS_NUM_INSTANCES), presence of a device at an address on a bus
(IicPsFindDevice), success of a mux channel-select exchange
(MuxInitChannel), presence of an EEPROM behind a selected mux channel
(FindEepromDevice), and the outcome of FindEepromPageSize (status and the
page size stored through the output pointer). -/
structure LocEnv where
  numInstances : Nat
  findDevice : Nat → Nat → Bool
  muxSelectOk : Nat → Nat → Nat → Bool
  findEepromDev : Nat → Nat → Nat → Nat → Bool
  detect : Nat → Nat → Int × Nat

/-- The channel masks visited by
for (MuxChannel = c; MuxChannel > 0; MuxChannel >>= 1), with fuel. -/
def channelListAux : Nat → Nat → List Nat
  | 0, _ => []
  | _ + 1, 0 => []
  | fuel + 1, c + 1 => (c + 1) :: channelListAux fuel ((c + 1) / 2)

/-- The channel masks visited starting from c (c also bounds the length). -/
def channelList (c : Nat) : List Nat :=
  channelListAux c c

/-- The entries of a zero-terminated candidate list that the C loops
while (list[Index] != 0) actually visit. -/
def activeAddrs (l : List Nat) : List Nat :=
  l.takeWhile (fun a => a != 0)

/-- Inner channel loop of IicPsFindEeprom (lines 465-482) for one mux
address m and one EEPROM candidate a: select the channel (an early
XST_FAILURE return if the select transfer fails), probe for the EEPROM and
on a hit store the address and run the page-size detector.  Returns an
early-return value or none (loop exhausted), with the probes made. -/
def chanScan (env : LocEnv) (d m a : Nat) : List Nat → Option LocRet × List Probe
  | [] => (none, [])
  | ch :: rest =>
      if env.muxSelectOk d m ch = false then (some (XST_FAILURE, none, none), [])
      else
        if env.findEepromDev d m ch a then
          let dr := env.detect d a
          if dr.1 ≠ XST_SUCCESS then
            (some (XST_FAILURE, some a, some dr.2), [⟨d, m, ch, a⟩])
          else (some (XST_SUCCESS, some a, some dr.2), [⟨d, m, ch, a⟩])
        else
          let r := chanScan env d m a rest
          (r.1, ⟨d, m, ch, a⟩ :: r.2)

/-- EEPROM-address loop of the mux path of IicPsFindEeprom (line 464). -/
def addrScanMux (env : LocEnv) (d m : Nat) : List Nat → Option LocRet × List Probe
  | [] => (none, [])
  | a :: rest =>
      let c := chanScan env d m a (channelList MAX_CHANNELS)
      match c.1 with
      | some r => (some r, c.2)
      | none =>
          let r := addrScanMux env d m rest
          (r.1, c.2 ++ r.2)

/-- Mux-address loop of IicPsFindEeprom (lines 461-485): for each nonzero
mux address that is present on the bus, run the address/channel search. -/
def muxScan (env : LocEnv) (d : Nat) : List Nat → Option LocRet × List Probe
  | [] => (none, [])
  | m :: rest =>
      if env.findDevice d m then
        let aRes := addrScanMux env d m (activeAddrs EepromAddr)
        match aRes.1 with
        | some r => (some r, aRes.2)
        | none =>
            let r := muxScan env d rest
            (r.1, aRes.2 ++ r.2)
      else muxScan env d rest

/-- Direct (no-mux) loop of IicPsFindEeprom (lines 486-493): first
responding candidate wins, with PAGE_SIZE_32 stored as the page size and no
detector run. -/
def directScan (env : LocEnv) (d : Nat) : List Nat → Option LocRet
  | [] => none
  | a :: rest =>
      if env.findDevice d a then some (XST_SUCCESS, some a, some PAGE_SIZE_32)
      else directScan env d rest

/-- The body of the device loop of IicPsFindEeprom for one device instance:
the whole mux path, then, if it fell through, the direct path. -/
def deviceSearch (env : LocEnv) (d : Nat) : Option LocRet × List Probe :=
  let mRes := muxScan env d (activeAddrs MuxAddr)
  match mRes.1 with
  | some r => (some r, mRes.2)
  | none => (directScan env d (activeAddrs EepromAddr), mRes.2)

/-- Device loop of IicPsFindEeprom (line 460). -/
def devScan (env : LocEnv) : List Nat → Option LocRet × List Probe
  | [] => (none, [])
  | d :: rest =>
      let dRes := deviceSearch env d
      match dRes.1 with
      | some r => (some r, dRes.2)
      | none =>
          let r := devScan env rest
          (r.1, dRes.2 ++ r.2)

/-- IicPsFindEeprom (lines 453-496): search all device instances; a0 and p0
are the values held by the Eeprom_Addr and PageSize output locations before
the call.  Also returns the list of mux-path EEPROM probes made. -/
def IicPsFindEeprom (env : LocEnv) (a0 p0 : Nat) : Int × Nat × Nat × List Probe :=
  let r := devScan env (List.range env.numInstances)
  match r.1 with
  | some v => (v.1, v.2.1.getD a0, v.2.2.getD p0, r.2)
  | none => (XST_FAILURE, a0, p0, r.2)

/-- Environment of the slave monitor: success of IicPsConfig per device id,
and the interrupt status register value observed by the poll at tick t. -/
structure MonEnv where
  configOk : Nat → Bool
  isr : Nat → Nat

/-- Observable controller state for the slave monitor: whether slave
monitor mode is enabled, and the last value written to the interrupt status
register (a write-1-to-clear register, so a written value clears exactly
the bits set in it). -/
structure MonHw where
  slvMonEnabled : Bool
  lastIsrWrite : Option Nat

/-- The polling loop shared by IicPsSlaveMonitor (lines 651-664) and
FindEepromDevice (lines 521-534): read the interrupt status register up to
fuel times; on the slave-ready bit, disable the monitor and write the read
value back (clearing the bit); on exhaustion, disable the monitor. -/
def slvMonPollLoop (env : MonEnv) (hw : MonHw) (t : Nat) : Nat → Int × MonHw
  | 0 => (XST_FAILURE, { hw with slvMonEnabled := false })
  | fuel + 1 =>
      let isr := env.isr t
      if isr &&& XIICPS_IXR_SLV_RDY_MASK ≠ 0 then
        (XST_SUCCESS, { slvMonEnabled := false, lastIsrWrite := some isr })
      else slvMonPollLoop env hw (t + 1) fuel

/-- IicPsSlaveMonitor (lines 630-667): configure the controller, enable
slave monitor mode for the address, poll up to SLV_MON_LOOP_COUNT times. -/
def IicPsSlaveMonitor (env : MonEnv) (_address devId : Nat) (hw : MonHw)
    (t : Nat) : Int × MonHw :=
  if env.configOk devId = false then (XST_FAILURE, hw)
  else slvMonPollLoop env { hw with slvMonEnabled := true } t SLV_MON_LOOP_COUNT

/-- FindEepromDevice (lines 509-538): enable slave monitor mode for the
address and poll up to SLV_MON_LOOP_COUNT times (no configuration step). -/
def FindEepromDevice (env : MonEnv) (_address : Nat) (hw : MonHw)
    (t : Nat) : Int × MonHw :=
  slvMonPollLoop env { hw with slvMonEnabled := true } t SLV_MON_LOOP_COUNT

/-- The all-zero byte buffer, the initial contents of both global buffers. -/
def zeroBuf : Nat → Nat := fun _ => 0

/-- A program state with zeroed buffers and a given prior page size. -/
def progState0 (p : Nat) : ProgState :=
  ⟨zeroBuf, zeroBuf, p⟩

/-- Transfer environment in which every transfer succeeds and every read
returns all-zero data. -/
def envAllZero : I2CEnv :=
  ⟨fun _ _ _ => true, fun _ c _ => some (List.replicate c 0)⟩

/-- Transfer environment in which every send fails. -/
def envSendFail : I2CEnv :=
  ⟨fun _ _ _ => false, fun _ _ _ => none⟩

/-- Received data equal to the offset: trial 0 of the detector matches. -/
def rcvId : Nat → Nat → Nat → List Nat := fun _ c _ => List.range c

/-- Transfer environment in which every transfer succeeds and reads return
rcvId data. -/
def envId : I2CEnv :=
  ⟨fun _ _ _ => true, fun u c a => some (rcvId u c a)⟩

/-- Locator environment of the mux-channel scenario: one bus instance, a
mux at 0x74, channel selects succeed, an EEPROM at 0x55 behind mux channel
2 only, and a page-size detector outcome of (XST_SUCCESS, D). -/
def envScenario (D : Nat) : LocEnv :=
  ⟨1, fun _ a => a == 0x74, fun _ _ _ => true,
   fun _ m ch a => m == 0x74 && ch == 2 && a == 0x55,
   fun _ _ => (XST_SUCCESS, D)⟩

/-- Locator environment refuting claim C3 as stated: a mux at 0x74 is
present, every channel-select transfer fails, no EEPROM is behind any mux
channel, and an EEPROM at 0x54 would respond directly on the bus. -/
def envMuxSelFail : LocEnv :=
  ⟨1, fun _ a => a == 0x74 || a == 0x54, fun _ _ _ => false,
   fun _ _ _ _ => false, fun _ _ => (XST_FAILURE, 0)⟩

/-- Locator environment with no mux present and a direct EEPROM at 0x54. -/
def envDirectOnly : LocEnv :=
  ⟨1, fun _ a => a == 0x54, fun _ _ _ => true, fun _ _ _ _ => false,
   fun _ _ => (XST_FAILURE, 0)⟩

/-- Locator environment in which both a mux-gated EEPROM (0x54 behind
channel 4 of the mux at 0x74) and a direct EEPROM (0x55) would respond. -/
def envBothPaths : LocEnv :=
  ⟨1, fun _ a => a == 0x74 || a == 0x55, fun _ _ _ => true,
   fun _ m ch a => m == 0x74 && ch == 4 && a == 0x54,
   fun _ _ => (XST_SUCCESS, 64)⟩

/-- Monitor environment: configuration succeeds and the slave-ready bit is
set at every poll. -/
def envMonReady : MonEnv :=
  ⟨fun _ => true, fun _ => 0x10⟩

/-- Initial controller state: slave monitor disabled, no ISR write yet. -/
def hw0 : MonHw :=
  ⟨false, none⟩

/-- Transfer environment whose sends succeed except at tick 3 (the page
write of the second detector trial) and whose reads return all-zero data:
trial 0 completes mismatched, trial 1 fails its write. -/
def envFailAt3 : I2CEnv :=
  ⟨fun u _ _ => u != 3, fun _ c _ => some (List.replicate c 0)⟩

theorem upd_self (b : Nat → Nat) (i v : Nat) : upd b i v i = v := by
  simp [upd]

theorem upd_other (b : Nat → Nat) (i v j : Nat) (h : j ≠ i) :
    upd b i v j = b j := by
  simp [upd, h]

theorem fillWith_succ (b : Nat → Nat) (off n : Nat) (g : Nat → Nat) :
    fillWith b off (n + 1) g = upd (fillWith b off n g) (off + n) (g n) := by
  unfold fillWith
  rw [List.range_succ, List.foldl_append]
  rfl

theorem fillWith_untouched (g : Nat → Nat) (n : Nat) :
    ∀ (b : Nat → Nat) (off j : Nat), (∀ k, k < n → off + k ≠ j) →
      fillWith b off n g j = b j := by
  induction n with
  | zero => intro b off j _; rfl
  | succ m ih =>
      intro b off j h
      rw [fillWith_succ,
        upd_other _ _ _ _ (fun hj => h m (Nat.lt_succ_self m) hj.symm)]
      exact ih b off j (fun k hk => h k (Nat.lt_succ_of_lt hk))

theorem fillWith_at (g : Nat → Nat) (n : Nat) :
    ∀ (b : Nat → Nat) (off k : Nat), k < n → fillWith b off n g (off + k) = g k := by
  induction n with
  | zero => intro b off k hk; omega
  | succ m ih =>
      intro b off k hk
      rw [fillWith_succ]
      by_cases hkm : k = m
      · subst hkm; rw [upd_self]
      · rw [upd_other _ _ _ _ (by omega)]
        exact ih b off k (by omega)

theorem eepromAddrEncode_frame (pageSize address : Nat) (wb : Nat → Nat)
    (j : Nat) (hj : 2 ≤ j) : (eepromAddrEncode pageSize address wb).1 j = wb j := by
  unfold eepromAddrEncode
  split
  · dsimp only
    exact upd_other _ _ _ _ (by omega)
  · dsimp only
    rw [upd_other _ _ _ _ (by omega), upd_other _ _ _ _ (by omega)]

theorem eepromAddrEncode_off_le (pageSize address : Nat) (wb : Nat → Nat) :
    (eepromAddrEncode pageSize address wb).2 ≤ 2 := by
  unfold eepromAddrEncode
  split <;> omega

theorem EepromReadData_pageSize (env : I2CEnv) (slvAddr : Nat) (s : ProgState)
    (byteCount address t : Nat) :
    (EepromReadData env slvAddr s byteCount address t).2.1.pageSize = s.pageSize := by
  unfold EepromReadData
  dsimp only
  split
  · rfl
  · split <;> rfl

theorem EepromReadData_wb (env : I2CEnv) (slvAddr : Nat) (s : ProgState)
    (byteCount address t : Nat) :
    (EepromReadData env slvAddr s byteCount address t).2.1.writeBuffer =
      (eepromAddrEncode s.pageSize address s.writeBuffer).1 := by
  unfold EepromReadData
  dsimp only
  split
  · rfl
  · split <;> rfl

theorem EepromReadData_rb_frame (env : I2CEnv) (slvAddr : Nat) (s : ProgState)
    (byteCount address t j : Nat) (hj : byteCount ≤ j) :
    (EepromReadData env slvAddr s byteCount address t).2.1.readBuffer j =
      s.readBuffer j := by
  unfold EepromReadData
  dsimp only
  split
  · rfl
  · split
    · rfl
    · exact fillWith_untouched _ _ _ _ _ (fun k hk => by omega)

theorem detectorPagePrep_wb_frame (psz i : Nat) (wb rb : Nat → Nat) (j : Nat)
    (hj : psz + 2 ≤ j) : (detectorPagePrep psz i wb rb).1 j = wb j := by
  unfold detectorPagePrep
  dsimp only
  rw [fillWith_untouched _ _ _ _ _ (fun k hk => by
    have := eepromAddrEncode_off_le psz EEPROM_START_ADDRESS wb
    omega)]
  exact eepromAddrEncode_frame _ _ _ _ (by omega)

theorem detectorPagePrep_rb_frame (psz i : Nat) (wb rb : Nat → Nat) (j : Nat)
    (hj : psz ≤ j) : (detectorPagePrep psz i wb rb).2.1 j = rb j := by
  unfold detectorPagePrep
  dsimp only
  exact fillWith_untouched _ _ _ _ _ (fun k hk => by omega)

theorem detectorPagePrep_pattern (psz i : Nat) (wb rb : Nat → Nat) (k : Nat)
    (hk : k < psz) :
    (detectorPagePrep psz i wb rb).1 ((detectorPagePrep psz i wb rb).2.2 + k) =
      (k + i) % 256 := by
  unfold detectorPagePrep
  dsimp only
  exact fillWith_at _ _ _ _ _ hk

theorem detectorTrial_pageSize (env : I2CEnv) (slvAddr i : Nat) (s : ProgState)
    (t : Nat) :
    (detectorTrial env slvAddr i s t).2.1.pageSize = ps.getD i 0 := by
  unfold detectorTrial
  dsimp only
  split
  · rfl
  · split
    · rw [EepromReadData_pageSize]
    · split <;> rw [EepromReadData_pageSize]

theorem detectorTrial_wb_frame (env : I2CEnv) (slvAddr i : Nat) (s : ProgState)
    (t j : Nat) (hi : i < 3) (hj : 66 ≤ j) :
    (detectorTrial env slvAddr i s t).2.1.writeBuffer j = s.writeBuffer j := by
  have hps : ps.getD i 0 ≤ 64 := by interval_cases i <;> norm_num [ps]
  unfold detectorTrial
  dsimp only
  split
  · exact detectorPagePrep_wb_frame (ps.getD i 0) i s.writeBuffer s.readBuffer j
      (by omega)
  · split
    · rw [EepromReadData_wb, eepromAddrEncode_frame _ _ _ _ (by omega)]
      exact detectorPagePrep_wb_frame (ps.getD i 0) i s.writeBuffer s.readBuffer j
        (by omega)
    · split <;>
        (rw [EepromReadData_wb, eepromAddrEncode_frame _ _ _ _ (by omega)]
         exact detectorPagePrep_wb_frame (ps.getD i 0) i s.writeBuffer s.readBuffer j
           (by omega))

theorem detectorTrial_rb_frame (env : I2CEnv) (slvAddr i : Nat) (s : ProgState)
    (t j : Nat) (hi : i < 3) (hj : 64 ≤ j) :
    (detectorTrial env slvAddr i s t).2.1.readBuffer j = s.readBuffer j := by
  have hps : ps.getD i 0 ≤ 64 := by interval_cases i <;> norm_num [ps]
  unfold detectorTrial
  dsimp only
  split
  · exact detectorPagePrep_rb_frame (ps.getD i 0) i s.writeBuffer s.readBuffer j
      (by omega)
  · split
    · rw [EepromReadData_rb_frame _ _ _ _ _ _ _ (by omega)]
      exact detectorPagePrep_rb_frame (ps.getD i 0) i s.writeBuffer s.readBuffer j
        (by omega)
    · split <;>
        (rw [EepromReadData_rb_frame _ _ _ _ _ _ _ (by omega)]
         exact detectorPagePrep_rb_frame (ps.getD i 0) i s.writeBuffer s.readBuffer j
           (by omega))

theorem countMatches_fill (rb : Nat → Nat) (psz i : Nat) (data : List Nat) :
    countMatches (fillWith rb 0 psz (fun k => data.getD k 0 % 256)) psz i =
      matchCountOf data psz i := by
  unfold countMatches matchCountOf
  congr 1
  apply List.filter_congr
  intro k hk
  have hk' : k < psz := List.mem_range.mp hk
  have h := fillWith_at (fun k => data.getD k 0 % 256) psz rb 0 k hk'
  rw [Nat.zero_add] at h
  rw [h]

theorem detectorTrial_good (env : I2CEnv) (rcv : Nat → Nat → Nat → List Nat)
    (slvAddr i : Nat) (s : ProgState) (t : Nat)
    (hs : ∀ u b c, env.sendOk u b c = true)
    (hr : ∀ u c d, env.recv u c d = some (rcv u c d)) :
    (detectorTrial env slvAddr i s t).1 =
      (if matchCountOf (rcv (t + 2) (ps.getD i 0) slvAddr) (ps.getD i 0) i =
          ps.getD i 0
       then Sum.inl XST_SUCCESS else Sum.inr XST_SUCCESS) ∧
    (detectorTrial env slvAddr i s t).2.2 = t + 3 := by
  unfold detectorTrial EepromReadData EepromWriteData
  simp only [hs, hr, if_true, ne_eq, eq_self_iff_true, not_true, if_false]
  rw [countMatches_fill]
  constructor <;> split <;> rfl

theorem detectorTrial_sendFail (env : I2CEnv) (slvAddr i : Nat) (s : ProgState)
    (t : Nat) (hf : ∀ b c, env.sendOk t b c = false) :
    (detectorTrial env slvAddr i s t).1 = Sum.inl XST_FAILURE := by
  unfold detectorTrial EepromWriteData
  simp [hf, XST_FAILURE, XST_SUCCESS]

/-- Claim C4: the page-size detector tries candidate sizes in the order 64,
32, 16; trial i writes a page at address 0 whose byte at offset k is
(k + i) mod 256; when all transfers succeed, a candidate is accepted,
returning success immediately with no further trials, exactly when the
count of matching read-back bytes equals the candidate size, and a trial
with a mismatched byte proceeds to the next smaller size. -/
theorem C4_detector_trial_order (env : I2CEnv) (rcv : Nat → Nat → Nat → List Nat)
    (slvAddr : Nat) (s : ProgState) (t : Nat)
    (hs : ∀ u b c, env.sendOk u b c = true)
    (hr : ∀ u c d, env.recv u c d = some (rcv u c d)) :
    (∀ psz i wb rb k, k < psz →
      (detectorPagePrep psz i wb rb).1 ((detectorPagePrep psz i wb rb).2.2 + k) =
        (k + i) % 256) ∧
    (matchCountOf (rcv (t + 2) 64 slvAddr) 64 0 = 64 →
      (FindEepromPageSize env slvAddr s t).1 = XST_SUCCESS ∧
      (FindEepromPageSize env slvAddr s t).2.1.pageSize = 64 ∧
      (FindEepromPageSize env slvAddr s t).2.2 = t + 3) ∧
    (matchCountOf (rcv (t + 2) 64 slvAddr) 64 0 ≠ 64 →
      matchCountOf (rcv (t + 5) 32 slvAddr) 32 1 = 32 →
      (FindEepromPageSize env slvAddr s t).1 = XST_SUCCESS ∧
      (FindEepromPageSize env slvAddr s t).2.1.pageSize = 32 ∧
      (FindEepromPageSize env slvAddr s t).2.2 = t + 6) ∧
    (matchCountOf (rcv (t + 2) 64 slvAddr) 64 0 ≠ 64 →
      matchCountOf (rcv (t + 5) 32 slvAddr) 32 1 ≠ 32 →
      matchCountOf (rcv (t + 8) 16 slvAddr) 16 2 = 16 →
      (FindEepromPageSize env slvAddr s t).1 = XST_SUCCESS ∧
      (FindEepromPageSize env slvAddr s t).2.1.pageSize = 16 ∧
      (FindEepromPageSize env slvAddr s t).2.2 = t + 9) := by
  have g0 := detectorTrial_good env rcv slvAddr 0 s t hs hr
  simp only [ps, List.getD_cons_zero, List.getD_cons_succ] at g0
  obtain ⟨g0a, g0t⟩ := g0
  refine ⟨fun psz i wb rb k hk => detectorPagePrep_pattern psz i wb rb k hk,
    ?_, ?_, ?_⟩
  · intro hm0
    unfold FindEepromPageSize
    dsimp only
    rw [g0a, if_pos hm0]
    dsimp only
    refine ⟨rfl, ?_, g0t⟩
    rw [detectorTrial_pageSize]
    decide
  · intro hm0 hm1
    unfold FindEepromPageSize
    dsimp only
    rw [g0a, if_neg hm0]
    dsimp only
    rw [g0t]
    have g1 := detectorTrial_good env rcv slvAddr 1
      ((detectorTrial env slvAddr 0 s t).2.1) (t + 3) hs hr
    simp only [ps, List.getD_cons_zero, List.getD_cons_succ] at g1
    obtain ⟨g1a, g1t⟩ := g1
    rw [show t + 3 + 2 = t + 5 by omega] at g1a
    rw [g1a, if_pos hm1]
    dsimp only
    refine ⟨rfl, ?_, ?_⟩
    · rw [detectorTrial_pageSize]
      decide
    · rw [g1t]
  · intro hm0 hm1 hm2
    unfold FindEepromPageSize
    dsimp only
    rw [g0a, if_neg hm0]
    dsimp only
    rw [g0t]
    have g1 := detectorTrial_good env rcv slvAddr 1
      ((detectorTrial env slvAddr 0 s t).2.1) (t + 3) hs hr
    simp only [ps, List.getD_cons_zero, List.getD_cons_succ] at g1
    obtain ⟨g1a, g1t⟩ := g1
    rw [show t + 3 + 2 = t + 5 by omega] at g1a
    rw [g1a, if_neg hm1]
    dsimp only
    rw [g1t]
    have g2 := detectorTrial_good env rcv slvAddr 2
      ((detectorTrial env slvAddr 1 (detectorTrial env slvAddr 0 s t).2.1
        (t + 3)).2.1) (t + 6) hs hr
    simp only [ps, List.getD_cons_zero, List.getD_cons_succ] at g2
    obtain ⟨g2a, g2t⟩ := g2
    rw [show t + 6 + 2 = t + 8 by omega] at g2a
    rw [g2a, if_pos hm2]
    dsimp only
    refine ⟨rfl, ?_, ?_⟩
    · rw [detectorTrial_pageSize]
      decide
    · rw [g2t]

theorem C4_detector_trial_order_witness :
    (FindEepromPageSize envId 0x54 (progState0 0) 0).1 = XST_SUCCESS ∧
    (FindEepromPageSize envId 0x54 (progState0 0) 0).2.1.pageSize = 64 ∧
    (FindEepromPageSize envId 0x54 (progState0 0) 0).2.2 = 0 + 3 :=
  (C4_detector_trial_order envId rcvId 0x54 (progState0 0) 0
    (fun _ _ _ => rfl) (fun _ _ _ => rfl)).2.1 (by decide)

/-- Claim C10: on every return of FindEepromPageSize, also on failure, the
page-size output holds the candidate size of the last trial attempted (one
of 64, 32, 16), because each candidate is stored into the output before it
is trialled; in particular when the very first transfer fails the caller's
previous page-size value has already been replaced by 64; when trial 0
completes mismatched and trial 1 fails its write, the output holds 32, the
last candidate attempted. -/
theorem C10_detector_overwrites_pageSize (env : I2CEnv) (slvAddr : Nat)
    (s : ProgState) (t : Nat) :
    ((FindEepromPageSize env slvAddr s t).2.1.pageSize = 64 ∨
     (FindEepromPageSize env slvAddr s t).2.1.pageSize = 32 ∨
     (FindEepromPageSize env slvAddr s t).2.1.pageSize = 16) ∧
    ((∀ b c, env.sendOk t b c = false) →
      (FindEepromPageSize env slvAddr s t).1 = XST_FAILURE ∧
      (FindEepromPageSize env slvAddr s t).2.1.pageSize = 64) ∧
    ((FindEepromPageSize envFailAt3 0x54 (progState0 99) 0).1 = XST_FAILURE ∧
     (FindEepromPageSize envFailAt3 0x54 (progState0 99) 0).2.1.pageSize = 32) := by
  constructor
  · unfold FindEepromPageSize
    dsimp only
    rcases hr0 : detectorTrial env slvAddr 0 s t with ⟨st0, s1, t1⟩
    have hp0 : s1.pageSize = 64 := by
      have h := detectorTrial_pageSize env slvAddr 0 s t
      rw [hr0] at h
      exact h
    dsimp only
    cases st0 with
    | inl v => exact Or.inl hp0
    | inr v =>
        dsimp only
        rcases hr1 : detectorTrial env slvAddr 1 s1 t1 with ⟨st1, s2, t2⟩
        have hp1 : s2.pageSize = 32 := by
          have h := detectorTrial_pageSize env slvAddr 1 s1 t1
          rw [hr1] at h
          exact h
        dsimp only
        cases st1 with
        | inl v1 => exact Or.inr (Or.inl hp1)
        | inr v1 =>
            dsimp only
            rcases hr2 : detectorTrial env slvAddr 2 s2 t2 with ⟨st2, s3, t3⟩
            have hp2 : s3.pageSize = 16 := by
              have h := detectorTrial_pageSize env slvAddr 2 s2 t2
              rw [hr2] at h
              exact h
            dsimp only
            cases st2 with
            | inl v2 => exact Or.inr (Or.inr hp2)
            | inr v2 => exact Or.inr (Or.inr hp2)
  constructor
  · intro hf
    have h0 := detectorTrial_sendFail env slvAddr 0 s t hf
    unfold FindEepromPageSize
    dsimp only
    rw [h0]
    refine ⟨rfl, ?_⟩
    rw [detectorTrial_pageSize]
    decide
  · exact ⟨by decide, by decide⟩

theorem C10_detector_overwrites_pageSize_witness :
    (FindEepromPageSize envSendFail 0x54 (progState0 99) 0).1 = XST_FAILURE ∧
    (FindEepromPageSize envSendFail 0x54 (progState0 99) 0).2.1.pageSize = 64 :=
  (C10_detector_overwrites_pageSize envSendFail 0x54 (progState0 99) 0).2.1
    (fun _ _ => rfl)

/-- Claim C1: a run in which every trial's write and read transfer succeeds
(reads return all-zero data) and no candidate size round-trips fully does
NOT return failure: FindEepromPageSize falls through with the status of the
last successful read, XST_SUCCESS, contradicting its documented contract of
returning XST_FAILURE when no page size was found. -/
theorem C1_detector_fallthrough_returns_success :
    matchCountOf (List.replicate 64 0) 64 0 ≠ 64 ∧
    matchCountOf (List.replicate 32 0) 32 1 ≠ 32 ∧
    matchCountOf (List.replicate 16 0) 16 2 ≠ 16 ∧
    (FindEepromPageSize envAllZero 0x54 (progState0 0) 0).1 = XST_SUCCESS ∧
    XST_SUCCESS ≠ XST_FAILURE := by
  refine ⟨by decide, by decide, by decide, by decide, by decide⟩

/-- Claim C2: in the self-test write phase with detected page size 16, the
encoded address byte for page index 1 is 0 (the constant start address 0 of
line 192), not the low byte 16 of page_index * page_size; for page size 32
the two big-endian bytes of page_index * page_size are encoded as the claim
states. -/
theorem C2_write_phase_address_eval :
    (examplePagePrep PAGE_SIZE_16 1 zeroBuf zeroBuf).1 0 = 0 ∧
    1 * PAGE_SIZE_16 % 256 = 16 ∧
    (examplePagePrep PAGE_SIZE_32 1 zeroBuf zeroBuf).1 0 = 0 ∧
    (examplePagePrep PAGE_SIZE_32 1 zeroBuf zeroBuf).1 1 = 32 := by
  refine ⟨by decide, by decide, by decide, by decide⟩

theorem eepromAddrEncode_one_byte (address : Nat) (wb : Nat → Nat)
    (ha : address < 65536) :
    (eepromAddrEncode PAGE_SIZE_16 address wb).1 0 = address % 256 ∧
    (eepromAddrEncode PAGE_SIZE_16 address wb).2 = 1 := by
  unfold eepromAddrEncode
  rw [if_pos rfl]
  refine ⟨?_, rfl⟩
  dsimp only
  rw [upd_self, Nat.mod_eq_of_lt ha]

theorem eepromAddrEncode_two_byte (psz address : Nat) (wb : Nat → Nat)
    (hpsz : psz ≠ PAGE_SIZE_16) (ha : address < 65536) :
    (eepromAddrEncode psz address wb).1 0 = address >>> 8 ∧
    (eepromAddrEncode psz address wb).1 1 = address % 256 ∧
    (eepromAddrEncode psz address wb).2 = 2 := by
  unfold eepromAddrEncode
  rw [if_neg hpsz]
  refine ⟨?_, ?_, rfl⟩
  · dsimp only
    simp only [upd]
    norm_num
    rw [Nat.mod_eq_of_lt ha, Nat.shiftRight_eq_div_pow]
    norm_num
    omega
  · dsimp only
    simp only [upd]
    norm_num

/-- Claim C5: when a page read (EepromReadData) encodes the EEPROM target
address, page size 16 puts the address low byte in the write buffer's first
byte with a 1-byte address field, and page sizes 32 and 64 put
(address >> 8) and (address & 0xFF) in the first two bytes in that order
with a 2-byte address field. -/
theorem C5_read_address_encoding (env : I2CEnv) (slvAddr : Nat) (s : ProgState)
    (byteCount address t : Nat) (wb : Nat → Nat) (ha : address < 65536) :
    ((eepromAddrEncode PAGE_SIZE_16 address wb).1 0 = address % 256 ∧
     (eepromAddrEncode PAGE_SIZE_16 address wb).2 = 1) ∧
    (∀ psz, (psz = PAGE_SIZE_32 ∨ psz = PAGE_SIZE_64) →
      (eepromAddrEncode psz address wb).1 0 = address >>> 8 ∧
      (eepromAddrEncode psz address wb).1 1 = address % 256 ∧
      (eepromAddrEncode psz address wb).2 = 2) ∧
    (s.pageSize = PAGE_SIZE_16 →
      (EepromReadData env slvAddr s byteCount address t).2.1.writeBuffer 0 =
        address % 256) ∧
    ((s.pageSize = PAGE_SIZE_32 ∨ s.pageSize = PAGE_SIZE_64) →
      (EepromReadData env slvAddr s byteCount address t).2.1.writeBuffer 0 =
        address >>> 8 ∧
      (EepromReadData env slvAddr s byteCount address t).2.1.writeBuffer 1 =
        address % 256) := by
  refine ⟨eepromAddrEncode_one_byte address wb ha, ?_, ?_, ?_⟩
  · intro psz hp
    refine eepromAddrEncode_two_byte psz address wb ?_ ha
    rcases hp with h | h <;> rw [h] <;> decide
  · intro h16
    rw [EepromReadData_wb, h16]
    exact (eepromAddrEncode_one_byte address s.writeBuffer ha).1
  · intro hp
    have hne : s.pageSize ≠ PAGE_SIZE_16 := by
      rcases hp with h | h <;> rw [h] <;> decide
    have h2 := eepromAddrEncode_two_byte s.pageSize address s.writeBuffer hne ha
    exact ⟨by rw [EepromReadData_wb]; exact h2.1,
      by rw [EepromReadData_wb]; exact h2.2.1⟩

theorem C5_read_address_encoding_witness :
    ((eepromAddrEncode PAGE_SIZE_16 4660 zeroBuf).1 0 = 4660 % 256 ∧
     (eepromAddrEncode PAGE_SIZE_16 4660 zeroBuf).2 = 1) ∧
    (∀ psz, (psz = PAGE_SIZE_32 ∨ psz = PAGE_SIZE_64) →
      (eepromAddrEncode psz 4660 zeroBuf).1 0 = 4660 >>> 8 ∧
      (eepromAddrEncode psz 4660 zeroBuf).1 1 = 4660 % 256 ∧
      (eepromAddrEncode psz 4660 zeroBuf).2 = 2) ∧
    ((progState0 PAGE_SIZE_32).pageSize = PAGE_SIZE_16 →
      (EepromReadData envAllZero 0x54 (progState0 PAGE_SIZE_32) 64 4660 0).2.1.writeBuffer 0 =
        4660 % 256) ∧
    (((progState0 PAGE_SIZE_32).pageSize = PAGE_SIZE_32 ∨
      (progState0 PAGE_SIZE_32).pageSize = PAGE_SIZE_64) →
      (EepromReadData envAllZero 0x54 (progState0 PAGE_SIZE_32) 64 4660 0).2.1.writeBuffer 0 =
        4660 >>> 8 ∧
      (EepromReadData envAllZero 0x54 (progState0 PAGE_SIZE_32) 64 4660 0).2.1.writeBuffer 1 =
        4660 % 256) :=
  C5_read_address_encoding envAllZero 0x54 (progState0 PAGE_SIZE_32) 64 4660 0
    zeroBuf (by norm_num)

theorem examplePagePrep_wb_frame (psz pc : Nat) (wb rb : Nat → Nat) (j : Nat)
    (hj : psz + 2 ≤ j) : (examplePagePrep psz pc wb rb).1 j = wb j := by
  unfold examplePagePrep
  dsimp only
  by_cases hp : psz = PAGE_SIZE_16
  · rw [if_pos hp]
    dsimp only
    rw [fillWith_untouched _ _ _ _ _ (fun k hk => by omega)]
    exact upd_other _ _ _ _ (by omega)
  · rw [if_neg hp]
    dsimp only
    rw [fillWith_untouched _ _ _ _ _ (fun k hk => by omega)]
    rw [upd_other _ _ _ _ (by omega)]
    exact upd_other _ _ _ _ (by omega)

theorem examplePagePrep_rb_frame (psz pc : Nat) (wb rb : Nat → Nat) (j : Nat)
    (hj : psz ≤ j) : (examplePagePrep psz pc wb rb).2.1 j = rb j := by
  unfold examplePagePrep
  dsimp only
  exact fillWith_untouched _ _ _ _ _ (fun k hk => by omega)

/-- Claim C9: for every detected page size in 16, 32, 64, the stores of the
self-test write phase, the page-size detector and the read transfer stay
within the buffer capacities: no store touches a write-buffer index at or
beyond 66 (2 address bytes + 64-byte maximum page) or a read-buffer index
at or beyond 64. -/
theorem C9_buffer_bounds (psz : Nat) (hpsz : psz = 16 ∨ psz = 32 ∨ psz = 64)
    (env : I2CEnv) (slvAddr i pc byteCount address t j : Nat) (s : ProgState)
    (wb rb : Nat → Nat) (hbc : byteCount ≤ 64) (hi : i < 3) :
    (66 ≤ j → (examplePagePrep psz pc wb rb).1 j = wb j) ∧
    (64 ≤ j → (examplePagePrep psz pc wb rb).2.1 j = rb j) ∧
    (66 ≤ j →
      (detectorTrial env slvAddr i s t).2.1.writeBuffer j = s.writeBuffer j) ∧
    (64 ≤ j →
      (detectorTrial env slvAddr i s t).2.1.readBuffer j = s.readBuffer j) ∧
    (66 ≤ j → (eepromAddrEncode psz address wb).1 j = wb j) ∧
    (66 ≤ j →
      (EepromReadData env slvAddr s byteCount address t).2.1.writeBuffer j =
        s.writeBuffer j) ∧
    (64 ≤ j →
      (EepromReadData env slvAddr s byteCount address t).2.1.readBuffer j =
        s.readBuffer j) := by
  have h64 : psz ≤ 64 := by rcases hpsz with h | h | h <;> omega
  refine ⟨fun hj => examplePagePrep_wb_frame psz pc wb rb j (by omega),
    fun hj => examplePagePrep_rb_frame psz pc wb rb j (by omega),
    fun hj => detectorTrial_wb_frame env slvAddr i s t j hi (by omega),
    fun hj => detectorTrial_rb_frame env slvAddr i s t j hi (by omega),
    fun hj => eepromAddrEncode_frame psz address wb j (by omega),
    fun hj => ?_, fun hj => ?_⟩
  · rw [EepromReadData_wb]
    exact eepromAddrEncode_frame s.pageSize address s.writeBuffer j (by omega)
  · exact EepromReadData_rb_frame env slvAddr s byteCount address t j (by omega)

theorem C9_buffer_bounds_witness :
    (66 ≤ 66 → (examplePagePrep 32 1 zeroBuf zeroBuf).1 66 = zeroBuf 66) ∧
    (64 ≤ 66 → (examplePagePrep 32 1 zeroBuf zeroBuf).2.1 66 = zeroBuf 66) ∧
    (66 ≤ 66 →
      (detectorTrial envAllZero 0x54 0 (progState0 32) 0).2.1.writeBuffer 66 =
        (progState0 32).writeBuffer 66) ∧
    (64 ≤ 66 →
      (detectorTrial envAllZero 0x54 0 (progState0 32) 0).2.1.readBuffer 66 =
        (progState0 32).readBuffer 66) ∧
    (66 ≤ 66 → (eepromAddrEncode 32 4660 zeroBuf).1 66 = zeroBuf 66) ∧
    (66 ≤ 66 →
      (EepromReadData envAllZero 0x54 (progState0 32) 32 4660 0).2.1.writeBuffer 66 =
        (progState0 32).writeBuffer 66) ∧
    (64 ≤ 66 →
      (EepromReadData envAllZero 0x54 (progState0 32) 32 4660 0).2.1.readBuffer 66 =
        (progState0 32).readBuffer 66) :=
  C9_buffer_bounds 32 (Or.inr (Or.inl rfl)) envAllZero 0x54 0 1 32 4660 0 66
    (progState0 32) zeroBuf zeroBuf (by norm_num) (by norm_num)

theorem slvMonPollLoop_spec (env : MonEnv) :
    ∀ (fuel : Nat) (hw : MonHw) (t : Nat),
      ((slvMonPollLoop env hw t fuel).1 = XST_SUCCESS ↔
        ∃ k, k < fuel ∧ env.isr (t + k) &&& XIICPS_IXR_SLV_RDY_MASK ≠ 0) ∧
      (slvMonPollLoop env hw t fuel).2.slvMonEnabled = false ∧
      ((slvMonPollLoop env hw t fuel).1 = XST_SUCCESS →
        ∃ v, (slvMonPollLoop env hw t fuel).2.lastIsrWrite = some v ∧
          v &&& XIICPS_IXR_SLV_RDY_MASK ≠ 0) := by
  intro fuel
  induction fuel with
  | zero =>
      intro hw t
      refine ⟨?_, rfl, ?_⟩
      · constructor
        · intro h
          simp [slvMonPollLoop, XST_FAILURE, XST_SUCCESS] at h
        · rintro ⟨k, hk, _⟩
          omega
      · intro h
        simp [slvMonPollLoop, XST_FAILURE, XST_SUCCESS] at h
  | succ m ih =>
      intro hw t
      have hstep : slvMonPollLoop env hw t (m + 1) =
          if env.isr t &&& XIICPS_IXR_SLV_RDY_MASK ≠ 0 then
            (XST_SUCCESS, ⟨false, some (env.isr t)⟩)
          else slvMonPollLoop env hw (t + 1) m := rfl
      rw [hstep]
      by_cases hbit : env.isr t &&& XIICPS_IXR_SLV_RDY_MASK ≠ 0
      · rw [if_pos hbit]
        refine ⟨?_, rfl, ?_⟩
        · constructor
          · intro _
            exact ⟨0, by omega, by simpa using hbit⟩
          · intro _
            rfl
        · intro _
          exact ⟨env.isr t, rfl, hbit⟩
      · rw [if_neg hbit]
        obtain ⟨ih1, ih2, ih3⟩ := ih hw (t + 1)
        refine ⟨?_, ih2, ih3⟩
        rw [ih1]
        constructor
        · rintro ⟨k, hk, hb⟩
          refine ⟨k + 1, by omega, ?_⟩
          have e : t + (k + 1) = t + 1 + k := by omega
          rwa [e]
        · rintro ⟨k, hk, hb⟩
          cases k with
          | zero => exact absurd (by simpa using hb) hbit
          | succ k2 =>
              refine ⟨k2, by omega, ?_⟩
              have e : t + 1 + k2 = t + (k2 + 1) := by omega
              rwa [e]

/-- Claim C8: with configuration succeeding, the slave presence monitor
returns success exactly when the slave-ready bit of the interrupt status
register is observed within SLV_MON_LOOP_COUNT polls; on both the success
and the timeout return slave monitor mode is disabled, and on success the
observed value, ready bit included, is written back to the
write-1-to-clear status register.  The same holds for FindEepromDevice. -/
theorem C8_slave_monitor (env : MonEnv) (address devId : Nat) (hw : MonHw)
    (t : Nat) (hc : env.configOk devId = true) :
    ((IicPsSlaveMonitor env address devId hw t).1 = XST_SUCCESS ↔
      ∃ k, k < SLV_MON_LOOP_COUNT ∧
        env.isr (t + k) &&& XIICPS_IXR_SLV_RDY_MASK ≠ 0) ∧
    (IicPsSlaveMonitor env address devId hw t).2.slvMonEnabled = false ∧
    ((IicPsSlaveMonitor env address devId hw t).1 = XST_SUCCESS →
      ∃ v, (IicPsSlaveMonitor env address devId hw t).2.lastIsrWrite = some v ∧
        v &&& XIICPS_IXR_SLV_RDY_MASK ≠ 0) ∧
    ((FindEepromDevice env address hw t).1 = XST_SUCCESS ↔
      ∃ k, k < SLV_MON_LOOP_COUNT ∧
        env.isr (t + k) &&& XIICPS_IXR_SLV_RDY_MASK ≠ 0) ∧
    (FindEepromDevice env address hw t).2.slvMonEnabled = false ∧
    ((FindEepromDevice env address hw t).1 = XST_SUCCESS →
      ∃ v, (FindEepromDevice env address hw t).2.lastIsrWrite = some v ∧
        v &&& XIICPS_IXR_SLV_RDY_MASK ≠ 0) := by
  have hmon : IicPsSlaveMonitor env address devId hw t =
      slvMonPollLoop env { hw with slvMonEnabled := true } t SLV_MON_LOOP_COUNT := by
    unfold IicPsSlaveMonitor
    exact if_neg (by simp [hc])
  have hfind : FindEepromDevice env address hw t =
      slvMonPollLoop env { hw with slvMonEnabled := true } t SLV_MON_LOOP_COUNT :=
    rfl
  obtain ⟨l1, l2, l3⟩ :=
    slvMonPollLoop_spec env SLV_MON_LOOP_COUNT { hw with slvMonEnabled := true } t
  rw [hmon, hfind]
  exact ⟨l1, l2, l3, l1, l2, l3⟩

theorem C8_slave_monitor_witness :
    envMonReady.configOk 0 = true ∧
    (((IicPsSlaveMonitor envMonReady 0x54 0 hw0 0).1 = XST_SUCCESS ↔
      ∃ k, k < SLV_MON_LOOP_COUNT ∧
        envMonReady.isr (0 + k) &&& XIICPS_IXR_SLV_RDY_MASK ≠ 0) ∧
    (IicPsSlaveMonitor envMonReady 0x54 0 hw0 0).2.slvMonEnabled = false ∧
    ((IicPsSlaveMonitor envMonReady 0x54 0 hw0 0).1 = XST_SUCCESS →
      ∃ v, (IicPsSlaveMonitor envMonReady 0x54 0 hw0 0).2.lastIsrWrite = some v ∧
        v &&& XIICPS_IXR_SLV_RDY_MASK ≠ 0) ∧
    ((FindEepromDevice envMonReady 0x54 hw0 0).1 = XST_SUCCESS ↔
      ∃ k, k < SLV_MON_LOOP_COUNT ∧
        envMonReady.isr (0 + k) &&& XIICPS_IXR_SLV_RDY_MASK ≠ 0) ∧
    (FindEepromDevice envMonReady 0x54 hw0 0).2.slvMonEnabled = false ∧
    ((FindEepromDevice envMonReady 0x54 hw0 0).1 = XST_SUCCESS →
      ∃ v, (FindEepromDevice envMonReady 0x54 hw0 0).2.lastIsrWrite = some v ∧
        v &&& XIICPS_IXR_SLV_RDY_MASK ≠ 0)) :=
  ⟨rfl, C8_slave_monitor envMonReady 0x54 0 hw0 0 rfl⟩

theorem directScan_eq_find (env : LocEnv) (d : Nat) :
    ∀ l : List Nat, directScan env d l =
      (l.find? (fun a => env.findDevice d a)).map
        (fun a => ((XST_SUCCESS, some a, some PAGE_SIZE_32) : LocRet)) := by
  intro l
  induction l with
  | nil => rfl
  | cons a rest ih =>
      by_cases h : env.findDevice d a = true
      · rw [directScan, if_pos h, List.find?_cons_of_pos _ h]
        rfl
      · rw [directScan, if_neg h, ih, List.find?_cons_of_neg _ h]

theorem devScan_fst_append (env : LocEnv) (l2 : List Nat) :
    ∀ l1 : List Nat, (∀ d ∈ l1, (deviceSearch env d).1 = none) →
      (devScan env (l1 ++ l2)).1 = (devScan env l2).1 := by
  intro l1
  induction l1 with
  | nil => intro _; rfl
  | cons d rest ih =>
      intro h
      have hd : (deviceSearch env d).1 = none := h d (by simp)
      rw [List.cons_append, devScan]
      dsimp only
      rw [hd]
      dsimp only
      exact ih (fun d2 hd2 => h d2 (by simp [hd2]))

theorem devScan_fst_cons_some (env : LocEnv) (d : Nat) (rest : List Nat)
    (r : LocRet) (h : (deviceSearch env d).1 = some r) :
    (devScan env (d :: rest)).1 = some r := by
  rw [devScan]
  dsimp only
  rw [h]

theorem range_split : ∀ n d : Nat, d < n →
    ∃ l2, List.range n = List.range d ++ d :: l2 := by
  intro n
  induction n with
  | zero => intro d hd; omega
  | succ m ih =>
      intro d hd
      by_cases hdm : d = m
      · subst hdm
        exact ⟨[], by rw [List.range_succ]⟩
      · obtain ⟨l2, hl2⟩ := ih d (by omega)
        refine ⟨l2 ++ [m], ?_⟩
        rw [List.range_succ, hl2]
        simp

/-- Claim C7: whenever, on the first device instance whose search resolves,
the multiplexer path returns a result, the locator's outcome is exactly
that mux-path outcome, even when a direct EEPROM candidate address would
also respond: per bus instance, every mux path is probed before any direct
address. -/
theorem C7_mux_precedence (env : LocEnv) (d a0 p0 : Nat) (st : Int)
    (ao po : Option Nat)
    (hd : d < env.numInstances)
    (hprev : ∀ d2, d2 < d → (deviceSearch env d2).1 = none)
    (hmux : (muxScan env d (activeAddrs MuxAddr)).1 = some (st, ao, po))
    (_hdir : (directScan env d (activeAddrs EepromAddr)).isSome = true) :
    (IicPsFindEeprom env a0 p0).1 = st ∧
    (IicPsFindEeprom env a0 p0).2.1 = ao.getD a0 ∧
    (IicPsFindEeprom env a0 p0).2.2.1 = po.getD p0 := by
  have hds : (deviceSearch env d).1 = some (st, ao, po) := by
    unfold deviceSearch
    dsimp only
    rw [hmux]
  obtain ⟨l2, hl2⟩ := range_split env.numInstances d hd
  unfold IicPsFindEeprom
  dsimp only
  rw [hl2,
    devScan_fst_append env (d :: l2) (List.range d)
      (fun d2 hd2 => hprev d2 (List.mem_range.mp hd2)),
    devScan_fst_cons_some env d l2 _ hds]
  exact ⟨rfl, rfl, rfl⟩

/-- Claim C3 (amended): whenever the whole multiplexer phase of a bus
instance falls through, that is no mux path yields an EEPROM and every
attempted channel-select transfer succeeded, the locator probes the EEPROM
candidate addresses directly on the bus and on the first presence hit
returns success with that address and the default page size 32, without
running the page-size detector (the result holds for every detector
environment). -/
theorem C3_direct_fallback (env : LocEnv) (d a0 p0 a : Nat)
    (hd : d < env.numInstances)
    (hprev : ∀ d2, d2 < d → (deviceSearch env d2).1 = none)
    (hmux : (muxScan env d (activeAddrs MuxAddr)).1 = none)
    (hfind : (activeAddrs EepromAddr).find? (fun x => env.findDevice d x) =
      some a) :
    (IicPsFindEeprom env a0 p0).1 = XST_SUCCESS ∧
    (IicPsFindEeprom env a0 p0).2.1 = a ∧
    (IicPsFindEeprom env a0 p0).2.2.1 = PAGE_SIZE_32 := by
  have hds : (deviceSearch env d).1 =
      some (XST_SUCCESS, some a, some PAGE_SIZE_32) := by
    unfold deviceSearch
    dsimp only
    rw [hmux]
    dsimp only
    rw [directScan_eq_find, hfind]
    rfl
  obtain ⟨l2, hl2⟩ := range_split env.numInstances d hd
  unfold IicPsFindEeprom
  dsimp only
  rw [hl2,
    devScan_fst_append env (d :: l2) (List.range d)
      (fun d2 hd2 => hprev d2 (List.mem_range.mp hd2)),
    devScan_fst_cons_some env d l2 _ hds]
  exact ⟨rfl, rfl, rfl⟩

/-- Claim C3 counterexample: with a mux present, no EEPROM behind any mux
channel (so no multiplexer path yields an EEPROM), a failing channel-select
transfer and an EEPROM at 0x54 that would respond directly, the locator
returns XST_FAILURE with the outputs untouched instead of trying the direct
candidates and returning success with 0x54 and page size 32. -/
theorem C3_direct_fallback_counterexample :
    envMuxSelFail.findDevice 0 0x54 = true ∧
    envMuxSelFail.findEepromDev 0 0x74 4 0x55 = false ∧
    IicPsFindEeprom envMuxSelFail 7 9 = (XST_FAILURE, 7, 9, []) := by
  refine ⟨rfl, rfl, rfl⟩

theorem C3_direct_fallback_witness :
    (IicPsFindEeprom envDirectOnly 7 9).1 = XST_SUCCESS ∧
    (IicPsFindEeprom envDirectOnly 7 9).2.1 = 0x54 ∧
    (IicPsFindEeprom envDirectOnly 7 9).2.2.1 = PAGE_SIZE_32 :=
  C3_direct_fallback envDirectOnly 0 7 9 0x54 (by decide)
    (fun d2 h2 => absurd h2 (by omega)) (by decide) (by decide)

theorem C7_mux_precedence_witness :
    (IicPsFindEeprom envBothPaths 7 9).1 = XST_SUCCESS ∧
    (IicPsFindEeprom envBothPaths 7 9).2.1 = 0x54 ∧
    (IicPsFindEeprom envBothPaths 7 9).2.2.1 = 64 :=
  C7_mux_precedence envBothPaths 0 7 9 XST_SUCCESS (some 0x54) (some 64)
    (by decide) (fun d2 h2 => absurd h2 (by omega)) (by decide) (by decide)

/-- Claim C6: for each mux found and candidate address the channels are
selected in the descending power-of-two order 4, 2, 1, stopping at the
first channel on which the EEPROM responds; in the scenario with EepromAddr
candidates 0x54 and 0x55, the mux at 0x74, and a device at 0x55 behind mux
channel 2, the locator returns 0x55 with the page size D reported by the
detector, having probed 0x54 on channels 4, 2, 1 and then 0x55 on channels
4 and 2. -/
theorem C6_mux_channel_scenario (D a0 p0 : Nat) :
    channelList MAX_CHANNELS = [4, 2, 1] ∧
    IicPsFindEeprom (envScenario D) a0 p0 =
      (XST_SUCCESS, 0x55, D,
        [⟨0, 0x74, 4, 0x54⟩, ⟨0, 0x74, 2, 0x54⟩, ⟨0, 0x74, 1, 0x54⟩,
         ⟨0, 0x74, 4, 0x55⟩, ⟨0, 0x74, 2, 0x55⟩]) := by
  exact ⟨rfl, rfl⟩
